import Mathlib

set_option maxRecDepth 100000

/-!
Verification of the intent classifier and dispatcher of the Healthcare AI
Assistant chatbot (`app.py`).

The program is embedded shallowly over `List Char`.  Python string and
regex operations are modelled for the ASCII fragment the program's
patterns use: `str.strip` / `str.lower` act on the ASCII whitespace and
letter ranges, and the regex word-character class `\w` is `[a-zA-Z0-9_]`.
Every alternation in the program's patterns begins and ends with a word
character, so a `\b`-delimited whole-word search reduces to: the previous
character (if any) is not a word character, the literal matches, and the
following character (if any) is not a word character.  `re.search` scans
positions left to right and, at a given position, tries the alternatives
in their written order; `re.match` anchors at the start.

The Completion Client (`ask_deepseek` and the remote call inside it) is
modelled as an explicit function argument, so that the dispatcher is a
pure function and the prompts it issues can be observed.
-/

/-- ASCII whitespace, as stripped by `str.strip()` and matched by regex
class `\s` (for ASCII text). -/
def isPySpace (c : Char) : Bool :=
  c = ' ' || c = '\t' || c = '\n' || c = '\r' || c = '\x0b' || c = '\x0c'

/-- Regex word character `\w`, restricted to ASCII: letters, digits and
the underscore.  The curly apostrophe in the source pattern and the ASCII
apostrophe are both non-word characters, in Python as here. -/
def isWordChar (c : Char) : Bool :=
  ('a' ≤ c && c ≤ 'z') || ('A' ≤ c && c ≤ 'Z') || ('0' ≤ c && c ≤ '9') || c = '_'

/-- `str.lower()` on the ASCII range: map capital letters to small. -/
def asciiLower (c : Char) : Char :=
  if 'A' ≤ c && c ≤ 'Z' then Char.ofNat (c.toNat + 32) else c

/-- `user_input.lower()`. -/
def pyLower (s : List Char) : List Char := s.map asciiLower

/-- `user_input.strip()`: drop leading and trailing whitespace. -/
def pyStrip (s : List Char) : List Char :=
  ((s.dropWhile isPySpace).reverse.dropWhile isPySpace).reverse

/-- The literal `p` matches at the head of `s`. -/
def litAt : List Char → List Char → Bool
  | [], _ => true
  | _ :: _, [] => false
  | p :: ps, c :: cs => p = c && litAt ps cs

/-- The word boundary `\b` after a match whose last character is a word
character: holds at the end of the text or before a non-word character. -/
def boundaryAfter : List Char → Bool
  | [] => true
  | c :: _ => !isWordChar c

/-- Try the alternatives in order at the head of `s`; return the first
one that matches and is followed by a word boundary.  This is how Python
resolves an alternation `(a|b|...)\b` at a fixed position, with
backtracking into the alternation when the trailing `\b` fails. -/
def altWithBoundary (alts : List (List Char)) (s : List Char) : Option (List Char) :=
  alts.find? fun p => litAt p s && boundaryAfter (s.drop p.length)

/-- Alternatives of the anchored pattern of rule 1,
`^\s*(what is|explain|define)\b`. -/
def defAlts : List (List Char) :=
  [("what is").data, ("explain").data, ("define").data]

/-- `re.match(r"^\s*(what is|explain|define)\b", lower)` succeeds. -/
def defMatch (s : List Char) : Bool :=
  (altWithBoundary defAlts (s.dropWhile isPySpace)).isSome

/-- Left-to-right scan of `re.search` for `\b(alt|...)\b`: `prevW` records
whether the previous character was a word character (initially there is
none).  Since every alternative begins with a word character, the leading
`\b` holds exactly when `prevW` is false. -/
def wordSearchGo (alts : List (List Char)) : Bool → List Char → Option (List Char)
  | _, [] => none
  | prevW, c :: cs =>
    if prevW then wordSearchGo alts (isWordChar c) cs
    else
      match altWithBoundary alts (c :: cs) with
      | some p => some p
      | none => wordSearchGo alts (isWordChar c) cs

/-- `re.search(r"\b(alt|...)\b", s)`, returning `group(1)`: the matched
alternative at the leftmost matching position. -/
def wordSearch (alts : List (List Char)) (s : List Char) : Option (List Char) :=
  wordSearchGo alts false s

/-- First-person markers of rule 2 of the dispatcher:
`\b(i have|i am|i’m|i feel)\b`.  The apostrophe in the third alternative
is the curly one, exactly as written in the source. -/
def markerAlts : List (List Char) :=
  [("i have").data, ("i am").data, ("i’m").data, ("i feel").data]

/-- Symptom terms of rule 2:
`\b(symptom|pain|ache|fever|cough|cold|headache|nausea)\b`. -/
def symptomAlts : List (List Char) :=
  [("symptom").data, ("pain").data, ("ache").data, ("fever").data,
   ("cough").data, ("cold").data, ("headache").data, ("nausea").data]

/-- Appointment terms of rule 3: `\b(appointment|doctor|physician|clinic)\b`. -/
def apptAlts : List (List Char) :=
  [("appointment").data, ("doctor").data, ("physician").data, ("clinic").data]

/-- Medication terms of rule 4: `\b(medication|prescription|drugs|pills)\b`. -/
def medAlts : List (List Char) :=
  [("medication").data, ("prescription").data, ("drugs").data, ("pills").data]

/-- The fixed warning returned on empty input. -/
def warningMsg : List Char := ("⚠️ Please enter a question.").data

/-- The fixed disclaimer appended on the symptom branch (the two adjacent
source literals, concatenated). -/
def disclaimerMsg : List Char :=
  ("⚠️ Disclaimer: This information is educational only and not a substitute for professional medical advice. Please consult a qualified healthcare professional for personalized guidance.").data

/-- The fixed appointment-referral string. -/
def apptMsg : List Char :=
  ("📅 For appointment scheduling or physician referrals, please contact your healthcare provider directly.").data

/-- The fixed medication-referral string. -/
def medMsg : List Char :=
  ("💊 For medication or prescription concerns, please consult your doctor or pharmacist.").data

/-- The derived prompt of the symptom branch,
`f"What are possible causes and general information about {symptom}?"`. -/
def symptomPromptOf (sym : List Char) : List Char :=
  ("What are possible causes and general information about ").data ++ sym ++ ("?").data

/-- Result of one dispatcher invocation: the returned string together
with the list of prompts sent to the Completion Client, in order. -/
structure BotResult where
  output : List Char
  calls : List (List Char)
deriving DecidableEq, Repr

/-- `healthcare_chatbot` from `app.py`, with the Completion Client
abstracted as the function `ask`.  The branch structure, conditions and
templates follow the source line by line. -/
def healthcare_chatbot (ask : List Char → List Char) (user_input : List Char) : BotResult :=
  let prompt := pyStrip user_input
  if prompt = [] then
    ⟨warningMsg, []⟩
  else
    let lower := pyLower prompt
    if defMatch lower then
      ⟨ask prompt, [prompt]⟩
    else if (wordSearch markerAlts lower).isSome && (wordSearch symptomAlts lower).isSome then
      let sym := (wordSearch symptomAlts lower).getD []
      let p := symptomPromptOf sym
      ⟨ask p ++ ("\n\n").data ++ disclaimerMsg, [p]⟩
    else if (wordSearch apptAlts lower).isSome then
      ⟨apptMsg, []⟩
    else if (wordSearch medAlts lower).isSome then
      ⟨medMsg, []⟩
    else
      ⟨ask prompt, [prompt]⟩

/-- `ask_deepseek` from `app.py`: the remote chat-completions call is the
function `call`, taking the model name, the sampling temperature and the
prompt and either succeeding with the generated content or failing with
an exception rendered as text.  On success the content is stripped; any
failure is caught and returned as an `[Error]: ...` string. -/
def ask_deepseek {Temp : Type}
    (call : List Char → Temp → List Char → Except (List Char) (List Char))
    (model : List Char) (temperature : Temp) (prompt : List Char) : List Char :=
  match call model temperature prompt with
  | Except.ok content => pyStrip content
  | Except.error e => ("[Error]: ").data ++ e

/-- The classifier branch an input falls into, mirroring the dispatcher
cascade. -/
inductive Branch
  | empty | definitional | symptomatic | appt | med | fallback
deriving DecidableEq, Repr

/-- Which branch of `healthcare_chatbot` handles `s`: the same cascade of
conditions, in the same order. -/
def branchOf (s : List Char) : Branch :=
  if pyStrip s = [] then .empty
  else if defMatch (pyLower (pyStrip s)) then .definitional
  else if (wordSearch markerAlts (pyLower (pyStrip s))).isSome
       && (wordSearch symptomAlts (pyLower (pyStrip s))).isSome then .symptomatic
  else if (wordSearch apptAlts (pyLower (pyStrip s))).isSome then .appt
  else if (wordSearch medAlts (pyLower (pyStrip s))).isSome then .med
  else .fallback

/-- How many completion requests each branch issues. -/
def callsOfBranch : Branch → Nat
  | .empty => 0
  | .definitional => 1
  | .symptomatic => 1
  | .appt => 0
  | .med => 0
  | .fallback => 1

/-- The alternative `p` has a whole-word occurrence at position `i` of
`s`, where `prevW` says whether a word character immediately precedes
`s` (false at the start of the text). -/
def wordOccAt (alts : List (List Char)) (p : List Char) : Bool → List Char → Nat → Bool
  | prevW, s, 0 =>
    !prevW && decide (p ∈ alts) && litAt p s && boundaryAfter (s.drop p.length)
  | _, [], _ + 1 => false
  | _, c :: cs, i + 1 => wordOccAt alts p (isWordChar c) cs i

/-! ## General lemmas about the embedded operations -/

theorem pyStrip_ne_nil_of_search {alts : List (List Char)} {s : List Char}
    (h : (wordSearch alts (pyLower (pyStrip s))).isSome = true) : pyStrip s ≠ [] := by
  intro hnil
  rw [hnil] at h
  simp [pyLower, wordSearch, wordSearchGo] at h

theorem pyStrip_ne_nil_of_defMatch {s : List Char}
    (h : defMatch (pyLower (pyStrip s)) = true) : pyStrip s ≠ [] := by
  intro hnil
  rw [hnil] at h
  simp [pyLower, defMatch, altWithBoundary, defAlts, litAt] at h

theorem pyStrip_eq_nil_of_all_space {s : List Char}
    (h : s.all isPySpace = true) : pyStrip s = [] := by
  have h1 : s.dropWhile isPySpace = [] := by
    rw [List.dropWhile_eq_nil_iff]
    intro x hx
    exact List.all_eq_true.mp h x hx
  simp [pyStrip, h1]

theorem empty_branch_eq (ask : List Char → List Char) (s : List Char)
    (h : pyStrip s = []) :
    healthcare_chatbot ask s = ⟨warningMsg, []⟩ := by
  simp [healthcare_chatbot, h]

theorem def_branch_eq (ask : List Char → List Char) (s : List Char)
    (hdef : defMatch (pyLower (pyStrip s)) = true) :
    healthcare_chatbot ask s = ⟨ask (pyStrip s), [pyStrip s]⟩ := by
  have hne := pyStrip_ne_nil_of_defMatch hdef
  simp [healthcare_chatbot, hne, hdef]

theorem symptom_branch_eq (ask : List Char → List Char) (s sym : List Char)
    (hdef : defMatch (pyLower (pyStrip s)) = false)
    (hm : (wordSearch markerAlts (pyLower (pyStrip s))).isSome = true)
    (hs : wordSearch symptomAlts (pyLower (pyStrip s)) = some sym) :
    healthcare_chatbot ask s =
      ⟨ask (symptomPromptOf sym) ++ ("\n\n").data ++ disclaimerMsg,
       [symptomPromptOf sym]⟩ := by
  have hne := pyStrip_ne_nil_of_search hm
  simp [healthcare_chatbot, hne, hdef, hm, hs]

theorem appt_branch_eq (ask : List Char → List Char) (s : List Char)
    (hdef : defMatch (pyLower (pyStrip s)) = false)
    (hms : ¬((wordSearch markerAlts (pyLower (pyStrip s))).isSome = true
           ∧ (wordSearch symptomAlts (pyLower (pyStrip s))).isSome = true))
    (ha : (wordSearch apptAlts (pyLower (pyStrip s))).isSome = true) :
    healthcare_chatbot ask s = ⟨apptMsg, []⟩ := by
  have hne := pyStrip_ne_nil_of_search ha
  rcases Bool.eq_false_or_eq_true (wordSearch markerAlts (pyLower (pyStrip s))).isSome with hm | hm
  · rcases Bool.eq_false_or_eq_true (wordSearch symptomAlts (pyLower (pyStrip s))).isSome with hsy | hsy
    · exact absurd ⟨hm, hsy⟩ hms
    · simp [healthcare_chatbot, hne, hdef, hm, hsy, ha]
  · simp [healthcare_chatbot, hne, hdef, hm, ha]

theorem med_branch_eq (ask : List Char → List Char) (s : List Char)
    (hdef : defMatch (pyLower (pyStrip s)) = false)
    (hms : ¬((wordSearch markerAlts (pyLower (pyStrip s))).isSome = true
           ∧ (wordSearch symptomAlts (pyLower (pyStrip s))).isSome = true))
    (ha : (wordSearch apptAlts (pyLower (pyStrip s))).isSome = false)
    (hmed : (wordSearch medAlts (pyLower (pyStrip s))).isSome = true) :
    healthcare_chatbot ask s = ⟨medMsg, []⟩ := by
  have hne := pyStrip_ne_nil_of_search hmed
  rcases Bool.eq_false_or_eq_true (wordSearch markerAlts (pyLower (pyStrip s))).isSome with hm | hm
  · rcases Bool.eq_false_or_eq_true (wordSearch symptomAlts (pyLower (pyStrip s))).isSome with hsy | hsy
    · exact absurd ⟨hm, hsy⟩ hms
    · simp [healthcare_chatbot, hne, hdef, hm, hsy, ha, hmed]
  · simp [healthcare_chatbot, hne, hdef, hm, ha, hmed]

theorem fallback_branch_eq (ask : List Char → List Char) (s : List Char)
    (hne : pyStrip s ≠ [])
    (hdef : defMatch (pyLower (pyStrip s)) = false)
    (hms : ¬((wordSearch markerAlts (pyLower (pyStrip s))).isSome = true
           ∧ (wordSearch symptomAlts (pyLower (pyStrip s))).isSome = true))
    (ha : (wordSearch apptAlts (pyLower (pyStrip s))).isSome = false)
    (hmed : (wordSearch medAlts (pyLower (pyStrip s))).isSome = false) :
    healthcare_chatbot ask s = ⟨ask (pyStrip s), [pyStrip s]⟩ := by
  rcases Bool.eq_false_or_eq_true (wordSearch markerAlts (pyLower (pyStrip s))).isSome with hm | hm
  · rcases Bool.eq_false_or_eq_true (wordSearch symptomAlts (pyLower (pyStrip s))).isSome with hsy | hsy
    · exact absurd ⟨hm, hsy⟩ hms
    · simp [healthcare_chatbot, hne, hdef, hm, hsy, ha, hmed]
  · simp [healthcare_chatbot, hne, hdef, hm, ha, hmed]

theorem calls_length_eq (ask : List Char → List Char) (t : List Char) :
    (healthcare_chatbot ask t).calls.length = callsOfBranch (branchOf t) := by
  simp only [healthcare_chatbot, branchOf]
  split_ifs <;> simp [callsOfBranch]

/-! ## Leftmost-occurrence property of the word search -/

theorem altWithBoundary_mem {alts : List (List Char)} {s p : List Char}
    (h : altWithBoundary alts s = some p) :
    p ∈ alts ∧ (litAt p s && boundaryAfter (s.drop p.length)) = true := by
  rw [altWithBoundary] at h
  refine ⟨List.mem_of_find?_eq_some h, ?_⟩
  simpa using List.find?_some h

theorem altWithBoundary_none {alts : List (List Char)} {s : List Char}
    (h : altWithBoundary alts s = none) :
    ∀ p ∈ alts, ¬(litAt p s && boundaryAfter (s.drop p.length)) = true := by
  rw [altWithBoundary] at h
  intro p hp
  simpa using List.find?_eq_none.mp h p hp

theorem wordSearchGo_leftmost {alts : List (List Char)} {sym : List Char} :
    ∀ {s : List Char} {prevW : Bool}, wordSearchGo alts prevW s = some sym →
      ∃ i, wordOccAt alts sym prevW s i = true ∧
        ∀ j p, wordOccAt alts p prevW s j = true → i ≤ j := by
  intro s
  induction s with
  | nil => intro prevW h; simp [wordSearchGo] at h
  | cons c cs ih =>
    intro prevW h
    rw [wordSearchGo] at h
    by_cases hw : prevW = true
    · rw [if_pos hw] at h
      subst hw
      obtain ⟨i, hi, hmin⟩ := ih h
      refine ⟨i + 1, by simp only [wordOccAt]; exact hi, ?_⟩
      intro j p hj
      cases j with
      | zero => simp only [wordOccAt] at hj; simp at hj
      | succ j' =>
        simp only [wordOccAt] at hj
        exact Nat.succ_le_succ (hmin j' p hj)
    · rw [if_neg hw] at h
      have hw' : prevW = false := by
        cases prevW
        · rfl
        · exact absurd rfl hw
      subst hw'
      cases hAB : altWithBoundary alts (c :: cs) with
      | some p =>
        rw [hAB] at h
        cases h
        obtain ⟨hmem, hpred⟩ := altWithBoundary_mem hAB
        obtain ⟨hlit, hbnd⟩ := Bool.and_eq_true_iff.mp hpred
        refine ⟨0, ?_, fun j q hj => Nat.zero_le j⟩
        simp only [wordOccAt]
        simp [hmem, hlit, hbnd]
      | none =>
        rw [hAB] at h
        obtain ⟨i, hi, hmin⟩ := ih h
        refine ⟨i + 1, by simp only [wordOccAt]; exact hi, ?_⟩
        intro j p hj
        cases j with
        | zero =>
          simp only [wordOccAt, Bool.not_false, Bool.true_and] at hj
          obtain ⟨h12, hbnd⟩ := Bool.and_eq_true_iff.mp hj
          obtain ⟨hdec, hlit⟩ := Bool.and_eq_true_iff.mp h12
          exact absurd (Bool.and_eq_true_iff.mpr ⟨hlit, hbnd⟩)
            (altWithBoundary_none hAB p (of_decide_eq_true hdec))
        | succ j' =>
          simp only [wordOccAt] at hj
          exact Nat.succ_le_succ (hmin j' p hj)

theorem wordSearch_leftmost {alts : List (List Char)} {s sym : List Char}
    (h : wordSearch alts s = some sym) :
    ∃ i, wordOccAt alts sym false s i = true ∧
      ∀ j p, wordOccAt alts p false s j = true → i ≤ j :=
  wordSearchGo_leftmost h

theorem wordSearchGo_mem {alts : List (List Char)} {sym : List Char} :
    ∀ {s : List Char} {prevW : Bool}, wordSearchGo alts prevW s = some sym →
      sym ∈ alts := by
  intro s
  induction s with
  | nil => intro prevW h; simp [wordSearchGo] at h
  | cons c cs ih =>
    intro prevW h
    rw [wordSearchGo] at h
    by_cases hw : prevW = true
    · rw [if_pos hw] at h
      exact ih h
    · rw [if_neg hw] at h
      cases hAB : altWithBoundary alts (c :: cs) with
      | some p =>
        rw [hAB] at h
        cases h
        exact (altWithBoundary_mem hAB).1
      | none =>
        rw [hAB] at h
        exact ih h

theorem wordSearch_mem {alts : List (List Char)} {s sym : List Char}
    (h : wordSearch alts s = some sym) : sym ∈ alts :=
  wordSearchGo_mem h

theorem output_append_disclaimer (x : List Char) :
    x ++ ("\n\n").data ++ disclaimerMsg ≠ [] := by
  have hd : disclaimerMsg ≠ [] := by decide
  intro hcontra
  exact hd (List.append_eq_nil.mp hcontra).2

/-! ## The claims -/

/-- C1: for input that contains, lower-cased, a first-person marker and a
symptom term as whole words and whose trimmed lower-cased form does not
start with a definitional lead phrase, the dispatcher issues exactly one
completion request, with the derived prompt about the extracted symptom,
and returns the generated text followed by a blank line and the fixed
disclaimer, so the output ends with the disclaimer. -/
theorem c1_symptom_branch (ask : List Char → List Char) (s sym : List Char)
    (hdef : defMatch (pyLower (pyStrip s)) = false)
    (hm : (wordSearch markerAlts (pyLower (pyStrip s))).isSome = true)
    (hs : wordSearch symptomAlts (pyLower (pyStrip s)) = some sym) :
    healthcare_chatbot ask s =
      ⟨ask (symptomPromptOf sym) ++ ("\n\n").data ++ disclaimerMsg,
       [symptomPromptOf sym]⟩ ∧
    ∃ t, (healthcare_chatbot ask s).output = t ++ disclaimerMsg := by
  have he := symptom_branch_eq ask s sym hdef hm hs
  refine ⟨he, ask (symptomPromptOf sym) ++ ("\n\n").data, ?_⟩
  rw [he]

/-- C1 witness: the example of the specification, with a stubbed client. -/
theorem c1_witness :
    healthcare_chatbot (fun _ => ("GEN").data) (("I have a terrible cough").data) =
      ⟨("GEN").data ++ ("\n\n").data ++ disclaimerMsg,
       [symptomPromptOf (("cough").data)]⟩ ∧
    ∃ t, (healthcare_chatbot (fun _ => ("GEN").data)
            (("I have a terrible cough").data)).output = t ++ disclaimerMsg :=
  c1_symptom_branch (fun _ => ("GEN").data) (("I have a terrible cough").data)
    (("cough").data) (by decide) (by decide) (by decide)

/-- C2: for input whose trimmed lower-cased form starts with a
definitional lead phrase followed by a word boundary, the dispatcher
issues exactly one completion request with the original trimmed text and
returns the result verbatim, no disclaimer appended. -/
theorem c2_definitional_branch (ask : List Char → List Char) (s : List Char)
    (hdef : defMatch (pyLower (pyStrip s)) = true) :
    healthcare_chatbot ask s = ⟨ask (pyStrip s), [pyStrip s]⟩ :=
  def_branch_eq ask s hdef

/-- C2 witness: the example of the specification. -/
theorem c2_witness :
    healthcare_chatbot (fun _ => ("OUT").data) (("What is hypertension?").data) =
      ⟨("OUT").data, [("What is hypertension?").data]⟩ :=
  c2_definitional_branch (fun _ => ("OUT").data)
    (("What is hypertension?").data) (by decide)

/-- C3: for empty or whitespace-only input, the dispatcher returns the
fixed warning string and issues no completion request. -/
theorem c3_empty_input (ask : List Char → List Char) (s : List Char)
    (h : s.all isPySpace = true) :
    healthcare_chatbot ask s = ⟨warningMsg, []⟩ :=
  empty_branch_eq ask s (pyStrip_eq_nil_of_all_space h)

/-- C3 witness: three spaces. -/
theorem c3_witness :
    healthcare_chatbot (fun _ => ("OUT").data) (("   ").data) =
      ⟨warningMsg, []⟩ :=
  c3_empty_input (fun _ => ("OUT").data) (("   ").data) (by decide)

/-- C4: when no earlier rule matches, the dispatcher issues exactly one
completion request with the original trimmed text and returns the result
verbatim; and on every input the number of completion requests is one on
the definitional, symptom and fallback branches and zero on the empty,
appointment and medication branches. -/
theorem c4_fallback_branch (ask : List Char → List Char) (s : List Char)
    (hne : pyStrip s ≠ [])
    (hdef : defMatch (pyLower (pyStrip s)) = false)
    (hms : ¬((wordSearch markerAlts (pyLower (pyStrip s))).isSome = true
           ∧ (wordSearch symptomAlts (pyLower (pyStrip s))).isSome = true))
    (ha : (wordSearch apptAlts (pyLower (pyStrip s))).isSome = false)
    (hmed : (wordSearch medAlts (pyLower (pyStrip s))).isSome = false) :
    healthcare_chatbot ask s = ⟨ask (pyStrip s), [pyStrip s]⟩ ∧
    ∀ t, (healthcare_chatbot ask t).calls.length = callsOfBranch (branchOf t) :=
  ⟨fallback_branch_eq ask s hne hdef hms ha hmed, fun t => calls_length_eq ask t⟩

/-- C4 witness: an input matching none of the five earlier rules. -/
theorem c4_witness :
    healthcare_chatbot (fun _ => ("OUT").data) (("Tell me about nutrition").data) =
      ⟨("OUT").data, [("Tell me about nutrition").data]⟩ ∧
    ∀ t, (healthcare_chatbot (fun _ => ("OUT").data) t).calls.length =
      callsOfBranch (branchOf t) :=
  c4_fallback_branch (fun _ => ("OUT").data) (("Tell me about nutrition").data)
    (by decide) (by decide) (by decide) (by decide) (by decide)

/-- C5: for every model, temperature and prompt, a failing remote call is
caught and rendered as the normal return value prefixed with the error
marker, and a successful call returns the generated content with leading
and trailing whitespace trimmed.  `ask_deepseek` is a total function:
nothing is raised. -/
theorem c5_error_wrapping {Temp : Type}
    (call : List Char → Temp → List Char → Except (List Char) (List Char))
    (model : List Char) (temperature : Temp) (p e c : List Char) :
    (call model temperature p = Except.error e →
      ask_deepseek call model temperature p = ("[Error]: ").data ++ e) ∧
    (call model temperature p = Except.ok c →
      ask_deepseek call model temperature p = pyStrip c) := by
  constructor <;> intro h <;> simp [ask_deepseek, h]

/-- C5 witness: one failing and one succeeding stubbed call. -/
theorem c5_witness :
    ask_deepseek (fun _ _ _ => Except.error (("boom").data))
      (("m").data) () (("q").data) = ("[Error]: ").data ++ ("boom").data ∧
    ask_deepseek (fun _ _ _ => Except.ok (("  ans  ").data))
      (("m").data) () (("q").data) = pyStrip (("  ans  ").data) :=
  ⟨(c5_error_wrapping (fun _ _ _ => Except.error (("boom").data))
      (("m").data) () (("q").data) (("boom").data) []).1 rfl,
   (c5_error_wrapping (fun _ _ _ => Except.ok (("  ans  ").data))
      (("m").data) () (("q").data) [] (("  ans  ").data)).2 rfl⟩

/-- C6 counterexample: the input contains "doctor" as a whole word and
does not match the definitional rule, yet the dispatcher does not return
the appointment-referral string and does issue a completion request,
because the symptom rule matches first. -/
theorem c6_counterexample :
    wordSearch apptAlts
        (pyLower (pyStrip (("I have pain and need a doctor").data))) =
      some (("doctor").data) ∧
    defMatch (pyLower (pyStrip (("I have pain and need a doctor").data))) = false ∧
    (healthcare_chatbot (fun _ => ("GEN").data)
        (("I have pain and need a doctor").data)).output ≠ apptMsg ∧
    (healthcare_chatbot (fun _ => ("GEN").data)
        (("I have pain and need a doctor").data)).calls ≠ [] := by
  decide

/-- C6 (amended): for input containing an appointment term as a whole
word, not matching the definitional rule AND not matching the
first-person-symptom rule, the dispatcher returns the fixed
appointment-referral string with no completion request. -/
theorem c6_appt_branch (ask : List Char → List Char) (s : List Char)
    (hdef : defMatch (pyLower (pyStrip s)) = false)
    (hms : ¬((wordSearch markerAlts (pyLower (pyStrip s))).isSome = true
           ∧ (wordSearch symptomAlts (pyLower (pyStrip s))).isSome = true))
    (ha : (wordSearch apptAlts (pyLower (pyStrip s))).isSome = true) :
    healthcare_chatbot ask s = ⟨apptMsg, []⟩ :=
  appt_branch_eq ask s hdef hms ha

/-- C6 witness: the appointment example of the specification. -/
theorem c6_witness :
    healthcare_chatbot (fun _ => ("OUT").data) (("Can I book an appointment?").data) =
      ⟨apptMsg, []⟩ :=
  c6_appt_branch (fun _ => ("OUT").data) (("Can I book an appointment?").data)
    (by decide) (by decide) (by decide)

/-- C7: on the symptom branch the extracted term is the one whose
whole-word occurrence starts earliest in the text: the term put in the
derived prompt occurs at a position no later than any whole-word
occurrence of any symptom term. -/
theorem c7_leftmost_symptom (ask : List Char → List Char) (s sym : List Char)
    (hdef : defMatch (pyLower (pyStrip s)) = false)
    (hm : (wordSearch markerAlts (pyLower (pyStrip s))).isSome = true)
    (hs : wordSearch symptomAlts (pyLower (pyStrip s)) = some sym) :
    (healthcare_chatbot ask s).calls = [symptomPromptOf sym] ∧
    ∃ i, wordOccAt symptomAlts sym false (pyLower (pyStrip s)) i = true ∧
      ∀ j p, wordOccAt symptomAlts p false (pyLower (pyStrip s)) j = true → i ≤ j := by
  refine ⟨?_, wordSearch_leftmost hs⟩
  rw [symptom_branch_eq ask s sym hdef hm hs]

/-- C7 witness: in "I have a cough and pain" the term "pain" precedes
"cough" in the alternation of the pattern, yet "cough", occurring earlier
in the text, is the one extracted. -/
theorem c7_witness :
    (healthcare_chatbot (fun _ => ("GEN").data)
        (("I have a cough and pain").data)).calls =
      [symptomPromptOf (("cough").data)] ∧
    ∃ i, wordOccAt symptomAlts (("cough").data) false
          (pyLower (pyStrip (("I have a cough and pain").data))) i = true ∧
      ∀ j p, wordOccAt symptomAlts p false
          (pyLower (pyStrip (("I have a cough and pain").data))) j = true → i ≤ j :=
  c7_leftmost_symptom (fun _ => ("GEN").data) (("I have a cough and pain").data)
    (("cough").data) (by decide) (by decide) (by decide)

/-- The input of the C8 counterexample: the text "i'm in severe pain"
where the apostrophe is the straight ASCII one, U+0027 (built with
`Char.ofNat 39`), unlike the curly apostrophe of the source pattern. -/
def straightApostropheInput : List Char :=
  'i' :: Char.ofNat 39 :: 'm' :: (" in severe pain").data

/-- C8 counterexample: the input contains the ASCII-apostrophe form of
the contraction as a whole word together with the symptom term "pain",
and matches no earlier rule, yet the marker search fails (the source
pattern holds only the curly-apostrophe form), so the dispatcher takes
the fallback branch: the prompt sent is the raw input, not the derived
symptom prompt, and no disclaimer is appended. -/
theorem c8_counterexample :
    wordSearch symptomAlts (pyLower (pyStrip straightApostropheInput)) =
      some (("pain").data) ∧
    wordSearch markerAlts (pyLower (pyStrip straightApostropheInput)) = none ∧
    healthcare_chatbot (fun _ => ("GEN").data) straightApostropheInput =
      ⟨("GEN").data, [straightApostropheInput]⟩ := by
  decide

/-- C8 (amended): only the curly-apostrophe form is a recognized marker;
when the marker search fails — as it does on input whose only candidate
marker is the ASCII-apostrophe contraction — the symptom rule cannot
fire, and if the later rules also fail the dispatcher falls back to
forwarding the trimmed input verbatim, with no disclaimer. -/
theorem c8_ascii_apostrophe_fallback (ask : List Char → List Char) (s : List Char)
    (hne : pyStrip s ≠ [])
    (hdef : defMatch (pyLower (pyStrip s)) = false)
    (hm : wordSearch markerAlts (pyLower (pyStrip s)) = none)
    (ha : (wordSearch apptAlts (pyLower (pyStrip s))).isSome = false)
    (hmed : (wordSearch medAlts (pyLower (pyStrip s))).isSome = false) :
    healthcare_chatbot ask s = ⟨ask (pyStrip s), [pyStrip s]⟩ := by
  refine fallback_branch_eq ask s hne hdef ?_ ha hmed
  intro hcontra
  rw [hm] at hcontra
  simp at hcontra

/-- C8 witness: the amended behavior at the ASCII-apostrophe input. -/
theorem c8_witness :
    healthcare_chatbot (fun _ => ("GEN").data) straightApostropheInput =
      ⟨("GEN").data, [straightApostropheInput]⟩ :=
  c8_ascii_apostrophe_fallback (fun _ => ("GEN").data) straightApostropheInput
    (by decide) (by decide) (by decide) (by decide) (by decide)

/-- C9 counterexample: with a client that returns the empty string, the
dispatcher returns the empty string on the fallback branch, so its
output is not always non-empty. -/
theorem c9_counterexample :
    (healthcare_chatbot (fun _ => ([] : List Char)) (("hello").data)).output = [] := by
  decide

/-- C9 (amended): the dispatcher is a total function — no exception can
propagate — and whenever every reply of the (stubbed, total) Completion
Client is non-empty, its output is non-empty on every input. -/
theorem c9_nonempty_output (ask : List Char → List Char)
    (h : ∀ p, ask p ≠ []) (s : List Char) :
    (healthcare_chatbot ask s).output ≠ [] := by
  simp only [healthcare_chatbot]
  split_ifs
  · decide
  · exact h _
  · exact output_append_disclaimer _
  · decide
  · decide
  · exact h _

/-- C9 witness: a non-empty-replying client on a fallback input. -/
theorem c9_witness :
    (healthcare_chatbot (fun _ => ("ok").data) (("hello").data)).output ≠ [] :=
  c9_nonempty_output (fun _ => ("ok").data)
    (fun _ => by show ("ok").data ≠ []; decide) (("hello").data)

/-- C10: on the symptom branch, the term embedded in the derived prompt
is one of the eight lower-case alternatives of the pattern — extraction
runs on the lower-cased copy of the input, so the embedded term is
lower-case whatever the user typed. -/
theorem c10_lowercased_symptom (ask : List Char → List Char) (s sym : List Char)
    (hdef : defMatch (pyLower (pyStrip s)) = false)
    (hm : (wordSearch markerAlts (pyLower (pyStrip s))).isSome = true)
    (hs : wordSearch symptomAlts (pyLower (pyStrip s)) = some sym) :
    (healthcare_chatbot ask s).calls = [symptomPromptOf sym] ∧
    sym ∈ symptomAlts ∧
    (sym.all fun c => asciiLower c == c) = true := by
  have hmem := wordSearch_mem hs
  refine ⟨?_, hmem, ?_⟩
  · rw [symptom_branch_eq ask s sym hdef hm hs]
  · fin_cases hmem <;> decide

/-- C10 witness: the upper-case input "I have a FEVER" produces the
derived prompt with the lower-case term "fever". -/
theorem c10_witness :
    (healthcare_chatbot (fun _ => ("GEN").data) (("I have a FEVER").data)).calls =
      [symptomPromptOf (("fever").data)] ∧
    ("fever").data ∈ symptomAlts ∧
    ((("fever").data).all fun c => asciiLower c == c) = true :=
  c10_lowercased_symptom (fun _ => ("GEN").data) (("I have a FEVER").data)
    (("fever").data) (by decide) (by decide) (by decide)
